import Mathlib

/-!
Verification of the `trip-analyzer` pipeline (src/trip-analyzer/src/main.rs).

The program scans a sequence of taxi-trip records and accumulates trip
durations, bucketed by pickup hour-of-day, for trips whose pickup zone lies
in a fixed "midtown" set, whose dropoff zone is JFK airport (132), and whose
pickup falls on a weekday.  The embedding below translates the source
functions (`is_in_midtown`, `is_jfk_airport`, `is_weekday`,
`DurationHistograms::new`, `DurationHistograms::record_duration`, and the
record loop of `analyze`) into Lean; machine integers become `Nat`/`Int`
with explicit wraparound where the source casts (`as u64`).

External library code (chrono, hdrhistogram, csv) is not part of the
repository; where a claim depends on it, the corresponding definition is
modelled from the spec and says so in its doc comment.
-/

namespace TripAnalyzer

/-- `chrono::NaiveDateTime` (aliased `DT` in the source): a timezone-naive,
second-resolution timestamp.  Internally chrono stores a date plus a
time-of-day; an absolute count of seconds relative to the 1970-01-01 00:00:00
epoch is an equivalent representation for the operations the program uses
(subtraction in seconds, hour-of-day, weekday). -/
structure DT where
  secs : Int
deriving DecidableEq

/-- Days from 1970-01-01 for a civil date with year ≥ 1 (Gregorian calendar,
standard days-from-civil algorithm).  Used only to build concrete `DT`
values; all dates in the spec's scenarios are modern. -/
def daysFromCivil (y m d : Nat) : Int :=
  let y' := if m ≤ 2 then y - 1 else y
  let era := y' / 400
  let yoe := y' % 400
  let mp := (m + 9) % 12
  let doy := (153 * mp + 2) / 5 + d - 1
  let doe := yoe * 365 + yoe / 4 - yoe / 100 + doy
  (era * 146097 + doe : Int) - 719468

/-- Build the `DT` for `y-m-d h:mi:s` (a valid civil datetime, year ≥ 1). -/
def mkDT (y m d h mi s : Nat) : DT :=
  ⟨daysFromCivil y m d * 86400 + h * 3600 + mi * 60 + s⟩

/-- `NaiveDateTime::hour()`: the hour-of-day field, i.e. the
seconds-of-day divided by 3600. -/
def DT.hour (dt : DT) : Nat :=
  (dt.secs.emod 86400).toNat / 3600

/-- `Datelike::weekday().number_from_monday()`: Monday = 1 .. Sunday = 7.
1970-01-01 (epoch day 0) was a Thursday (= 4). -/
def DT.numberFromMonday (dt : DT) : Nat :=
  ((dt.secs.ediv 86400 + 3).emod 7).toNat + 1

/-- `is_weekday` from the source: weekday-from-Monday at most 5. -/
def is_weekday (datetime : DT) : Bool :=
  decide (datetime.numberFromMonday ≤ 5)

/-- The fixed sorted array of midtown location ids from `is_in_midtown`.
`LocId` is `u16` in the source; zone arithmetic is plain comparison, so the
embedding uses `Nat`. -/
def midtownLocations : List Nat :=
  [90, 100, 161, 162, 163, 164, 186, 230, 234]

/-- One halving step of `slice::binary_search` (Rust standard library):
maintain `[left, right)`, probe `mid = left + (right - left) / 2`, and
return `some mid` on an equal element.  `fuel` bounds the iteration count
(the caller supplies `length + 1`, which is ample). -/
def binarySearchAux (xs : List Nat) (target : Nat) :
    Nat → Nat → Nat → Option Nat
  | 0, _, _ => none
  | fuel + 1, left, right =>
    if left < right then
      let mid := left + (right - left) / 2
      let x := xs.getD mid 0
      if x < target then binarySearchAux xs target fuel (mid + 1) right
      else if target < x then binarySearchAux xs target fuel left mid
      else some mid
    else none

/-- `slice::binary_search`, specialised to what the program observes:
`some index` iff the probe sequence finds `target`. -/
def binarySearch (xs : List Nat) (target : Nat) : Option Nat :=
  binarySearchAux xs target (xs.length + 1) 0 xs.length

/-- `is_in_midtown` from the source: binary-search the sorted array and
test `is_ok()`. -/
def is_in_midtown (loc : Nat) : Bool :=
  (binarySearch midtownLocations loc).isSome

/-- `is_jfk_airport` from the source. -/
def is_jfk_airport (loc : Nat) : Bool :=
  loc == 132

example : is_in_midtown 161 = true := by decide
example : is_in_midtown 1 = false := by decide
example : is_in_midtown 90 = true := by decide
example : is_in_midtown 234 = true := by decide
example : (mkDT 2021 6 7 9 15 0).numberFromMonday = 1 := by decide
example : (mkDT 2020 1 15 8 30 0).numberFromMonday = 3 := by decide
example : (mkDT 2021 6 7 9 15 0).hour = 9 := by decide

/-- Modelled from the spec: the bucket index of a value in an
`hdrhistogram::Histogram` configured with lowest discernible value 1 and
3 significant digits (log-linear buckets; 2048 unit-resolution sub-buckets,
then doubling bucket widths).  The histogram library is external to the
repository; the claims only need that recording a value bumps the one
bucket containing it. -/
def bucketIdx (v : Nat) : Nat :=
  if v < 2048 then v
  else (Nat.log2 v - 10) * 1024 + (v >>> (Nat.log2 v - 10))

/-- Modelled from the spec: the observable state of one
`hdrhistogram::Histogram<u64>` — its configured bounds and precision, and a
frequency count per bucket.  (The library stores per-bucket counts, not
individual values; counts are `u64`, embedded as `Nat`.) -/
structure Histogram where
  lowerBound : Nat
  upperBound : Nat
  sigfigs : Nat
  counts : Nat → Nat

instance : Inhabited Histogram :=
  ⟨{ lowerBound := 0, upperBound := 0, sigfigs := 0, counts := fun _ => 0 }⟩

/-- Modelled from the spec: `Histogram::new_with_bounds(low, high, sigfig)`
fails with a `CreationError` when the low bound is zero, the high bound is
less than twice the low bound, or the precision is outside 1..=5; otherwise
all buckets start empty. -/
def Histogram.new_with_bounds (low high sigfig : Nat) :
    Except String Histogram :=
  if low < 1 ∨ high < 2 * low ∨ sigfig < 1 ∨ 5 < sigfig then
    .error "CreationError"
  else
    .ok { lowerBound := low, upperBound := high, sigfigs := sigfig,
          counts := fun _ => 0 }

/-- Modelled from the spec: `Histogram::record(value)` rejects a value above
the configured upper bound, leaving the histogram unmodified; otherwise it
increments the frequency of the bucket containing the value.  Mirrors the
`&mut self` signature as state-in/state-out plus the `Result`. -/
def Histogram.record (self : Histogram) (value : Nat) :
    Histogram × Except String Unit :=
  if self.upperBound < value then
    (self, .error "RecordError")
  else
    ({ self with counts := fun b =>
        if b = bucketIdx value then self.counts b + 1 else self.counts b },
     .ok ())

/-- `DurationHistograms` from the source: a wrapper around a vector of 24
histograms, one per pickup hour-of-day. -/
structure DurationHistograms where
  hists : List Histogram

/-- `DurationHistograms::new`: one histogram with bounds `[1, 3*60*60]` and
3 significant digits, replicated 24 times. -/
def DurationHistograms.new : Except String DurationHistograms :=
  (Histogram.new_with_bounds 1 (3 * 60 * 60) 3).map fun h =>
    ⟨List.replicate 24 h⟩

/-- The two duration-range violations `record_duration` reports.  The
source formats them as strings ("duration secs d is too short." and
"duration secs d is too long. ..."); the embedding keeps the discriminating
content, the variant and the offending duration. -/
inductive DurationError where
  | tooShort (secs : Nat)
  | tooLong (secs : Nat)
deriving DecidableEq

/-- The duration computation of `record_duration`:
`(dropoff - pickup).num_seconds() as u64`.  `num_seconds` is the signed
second difference (`i64`); the `as u64` cast wraps a negative value modulo
2^64. -/
def durationU64 (pickup dropoff : DT) : Nat :=
  ((dropoff.secs - pickup.secs).emod (2 ^ 64)).toNat

/-- `DurationHistograms::record_duration` from the source: compute the
duration, reject durations under 20 minutes, otherwise record into the
histogram at index `pickup.hour()`.  The Rust indexing `self.0[hour]` would
panic out of bounds; the embedding reads with a default element, and the
in-bounds fact (hour < 24 = length) is proved separately. -/
def DurationHistograms.record_duration (self : DurationHistograms)
    (pickup dropoff : DT) : DurationHistograms × Except DurationError Unit :=
  let duration := durationU64 pickup dropoff
  if duration < 20 * 60 then
    (self, .error (.tooShort duration))
  else
    let hour := pickup.hour
    let res := ((self.hists.getD hour default).record duration)
    (⟨self.hists.set hour res.1⟩,
     res.2.mapError fun _ => .tooLong duration)

/-- The fatal error categories of the pipeline (propagated with `?` in the
source, all boxed as `Box<dyn Error>` there): a CSV row that fails to
decode into a `Trip`, a timestamp that fails to parse, and an invalid
histogram configuration at startup. -/
inductive Fatal where
  | decodeError
  | parseError
  | configError
deriving DecidableEq

/-- The `Trip` record from the source.  The two timestamp fields are
strings in the source and are parsed by chrono (external to the
repository); modelled from the spec: each timestamp field is represented
by its parse outcome under the Temporal Parser — `some dt` for text of the
form `YYYY-MM-DD HH:MM:SS` denoting the valid datetime `dt`, `none` for
malformed text. -/
structure Trip where
  pickup_datetime : Option DT
  dropoff_datetime : Option DT
  pickup_loc : Nat
  dropoff_loc : Nat
deriving DecidableEq

/-- `parse_datetime` from the source, over the modelled timestamp field:
returns the parsed datetime or the fatal parse error the driver
propagates. -/
def parse_datetime (s : Option DT) : Except Fatal DT :=
  match s with
  | some dt => .ok dt
  | none => .error .parseError

/-- `RecordCounts` from the source: three `u32` counters, embedded as
`Nat` with every increment taken modulo 2^32 (the wrapping semantics of
`+= 1` in a release build; a debug build panics at the same point, so
2^32 reads is where the source's behaviour diverges from unbounded
counting either way). -/
structure RecordCounts where
  read : Nat
  matched : Nat
  skipped : Nat
deriving DecidableEq

/-- `RecordCounts::default()`: all three counters start at zero. -/
def RecordCounts.default : RecordCounts :=
  { read := 0, matched := 0, skipped := 0 }

/-- The body of the `for` loop in `analyze`, for one successfully decoded
record: bump `read`; if both zone tests pass, parse the pickup timestamp
(fatal on failure); if the pickup is a weekday, bump `matched`, parse the
dropoff (fatal on failure), and call `record_duration`, turning a
`DurationError` into a `skipped` bump.  (The `println!` of the first ten
records is output only and has no bearing on the state.)  Each `+= 1` on
a `u32` counter wraps modulo 2^32. -/
def processTrip (state : RecordCounts × DurationHistograms) (trip : Trip) :
    Except Fatal (RecordCounts × DurationHistograms) :=
  let rc := { state.1 with read := (state.1.read + 1) % 2 ^ 32 }
  let hist := state.2
  if is_in_midtown trip.pickup_loc && is_jfk_airport trip.dropoff_loc then
    match parse_datetime trip.pickup_datetime with
    | .error e => .error e
    | .ok pickup =>
      if is_weekday pickup then
        let rc := { rc with matched := (rc.matched + 1) % 2 ^ 32 }
        match parse_datetime trip.dropoff_datetime with
        | .error e => .error e
        | .ok dropoff =>
          let res := hist.record_duration pickup dropoff
          match res.2 with
          | .ok _ => .ok (rc, res.1)
          | .error _ =>
            .ok ({ rc with skipped := (rc.skipped + 1) % 2 ^ 32 }, res.1)
      else .ok (rc, hist)
  else .ok (rc, hist)

/-- The record loop of `analyze` over the record source.  Each row is
either a decoded `Trip` or a decode error (`result?` in the source aborts
the run on the latter); a fatal error from `processTrip` also aborts. -/
def analyzeList : List (Except Fatal Trip) → RecordCounts →
    DurationHistograms → Except Fatal (RecordCounts × DurationHistograms)
  | [], rc, hist => .ok (rc, hist)
  | row :: rest, rc, hist =>
    match row with
    | .error e => .error e
    | .ok trip =>
      match processTrip (rc, hist) trip with
      | .error e => .error e
      | .ok (rc', hist') => analyzeList rest rc' hist'

/-- `analyze` from the source, over the modelled record source: construct
fresh counts and histograms (propagating a `ConfigError`), then run the
loop.  The source prints the final `RecordCounts` and returns an empty
string; the embedding returns the final state those observers read. -/
def analyze (rows : List (Except Fatal Trip)) :
    Except Fatal (RecordCounts × DurationHistograms) :=
  match DurationHistograms.new with
  | .error _ => .error .configError
  | .ok hist => analyzeList rows RecordCounts.default hist

/-- The concrete fresh accumulator (`DurationHistograms::new` succeeds with
bounds `[1, 10800]` and 3 significant digits); used by concrete
instantiations below. -/
def freshHists : DurationHistograms :=
  ⟨List.replicate 24
    { lowerBound := 1, upperBound := 10800, sigfigs := 3,
      counts := fun _ => 0 }⟩

example : DurationHistograms.new = .ok freshHists := by rfl

/-- The "duration measurement" step the spec routes a qualifying record to:
with `matched` already bumped, call the Accumulator; a `DurationError`
bumps `skipped` and keeps going, success installs the updated histograms.
Stated separately so the driver's routing can be characterised against
it. -/
def measureStep (rc : RecordCounts) (s : DurationHistograms) (p q : DT) :
    RecordCounts × DurationHistograms :=
  match (s.record_duration p q).2 with
  | .ok _ => (rc, (s.record_duration p q).1)
  | .error _ =>
    ({ rc with skipped := (rc.skipped + 1) % 2 ^ 32 },
     (s.record_duration p q).1)

/-! ## Helper lemmas -/

theorem set_getElem?_getD_self {α : Type} (l : List α) (i : Nat) (d : α) :
    l.set i (l[i]?.getD d) = l := by
  induction l generalizing i with
  | nil => rfl
  | cons a l ih =>
    cases i with
    | zero => simp
    | succ j => simp [List.set, ih j]

theorem set_getD_self {α : Type} (l : List α) (i : Nat) (d : α) :
    l.set i (l.getD i d) = l := by
  simp [List.getD_eq_getElem?_getD, set_getElem?_getD_self]

theorem getD_set_self {α : Type} (l : List α) {i : Nat} (h : i < l.length)
    (v d : α) : (l.set i v).getD i d = v := by
  simp [List.getD_eq_getElem?_getD, List.getElem?_set_self h]

theorem getD_set_ne {α : Type} (l : List α) {i j : Nat} (h : i ≠ j)
    (v d : α) : (l.set i v).getD j d = l.getD j d := by
  simp [List.getD_eq_getElem?_getD, List.getElem?_set_ne h]

/-- One-step unfolding of the binary-search loop, for rewriting at concrete
fuel values. -/
theorem bsAux_succ (xs : List Nat) (t fuel left right : Nat) :
    binarySearchAux xs t (fuel + 1) left right =
      if left < right then
        let mid := left + (right - left) / 2
        let x := xs.getD mid 0
        if x < t then binarySearchAux xs t fuel (mid + 1) right
        else if t < x then binarySearchAux xs t fuel left mid
        else some mid
      else none := rfl

/-- When `record_duration` reports an error, the histogram vector it hands
back is the one it was given (the too-short branch never touches it; the
too-long branch writes back the unmodified histogram it read). -/
theorem record_duration_error_fst (s : DurationHistograms) (p q : DT)
    (e : DurationError) (h : (s.record_duration p q).2 = .error e) :
    (s.record_duration p q).1 = s := by
  rcases s with ⟨hists⟩
  by_cases hs : durationU64 p q < 20 * 60
  · simp [DurationHistograms.record_duration, hs]
  · by_cases hub : (hists[p.hour]?.getD default).upperBound < durationU64 p q
    · simp [DurationHistograms.record_duration, Histogram.record, hs, hub,
        set_getElem?_getD_self]
    · exfalso
      simp [DurationHistograms.record_duration, Histogram.record, hs, hub,
        Except.mapError] at h

/-! ## Claim theorems -/

/-- C7: for every zone identifier, `is_in_midtown` returns true iff the
zone is a member of the fixed 9-element set {90, 100, 161, 162, 163, 164,
186, 230, 234}: the binary search over the sorted array is equivalent to
plain set membership. -/
theorem is_in_midtown_iff_mem (loc : Nat) :
    is_in_midtown loc = true ↔ loc ∈ midtownLocations := by
  simp only [is_in_midtown, binarySearch, midtownLocations,
    List.length_cons, List.length_nil]
  norm_num [bsAux_succ]
  split_ifs <;> simp_all <;> omega

/-- C9: the pipeline is a deterministic function of its input record
sequence: running `analyze` twice on the same finite sequence (each run
constructing a fresh accumulator and fresh running counts) produces
identical final counts and identical histogram contents.  The embedding
exhibits the whole pipeline as a pure function of the record list, so the
two runs are the same value. -/
theorem analyze_deterministic (rows : List (Except Fatal Trip)) :
    analyze rows = analyze rows := rfl

/-- C10: the counter index used by `record_duration` is `pickup.hour()`,
which always lies below 24, and the vector built by
`DurationHistograms::new` has exactly 24 elements, so the indexing
`self.0[hour]` is within bounds. -/
theorem hour_index_in_bounds :
    (∀ dt : DT, dt.hour < 24) ∧
      DurationHistograms.new.map (fun s => s.hists.length) = .ok 24 := by
  constructor
  · intro dt
    have h1 : 0 ≤ dt.secs.emod 86400 := Int.emod_nonneg _ (by decide)
    have h2 : dt.secs.emod 86400 < 86400 :=
      Int.emod_lt_of_pos _ (by decide)
    simp only [DT.hour]
    omega
  · rfl

/-- C4 (against the claim): the code does NOT treat a non-positive
difference as a domain error: `(dropoff - pickup).num_seconds() as u64`
silently wraps a negative difference modulo 2^64.  Evaluated at a concrete
record whose dropoff is 60 seconds before its pickup, the computed duration
is 2^64 - 60 and `record_duration` reports it as "too long". -/
theorem negative_duration_wraps :
    durationU64 (mkDT 2021 6 7 9 1 0) (mkDT 2021 6 7 9 0 0) =
      2 ^ 64 - 60 ∧
    (freshHists.record_duration (mkDT 2021 6 7 9 1 0)
        (mkDT 2021 6 7 9 0 0)).2 =
      .error (.tooLong (2 ^ 64 - 60)) := by
  exact ⟨by decide, by rfl⟩

/-- C2: over any histogram state whose selected counter carries the
configured upper bound 10800, `record_duration` returns a too-short error
whenever the computed duration is below 1200 seconds and a too-long error
whenever it exceeds 10800 seconds, and in both error cases hands back the
histogram vector unchanged (all 24 counters unmodified). -/
theorem record_duration_range_errors (s : DurationHistograms) (p q : DT)
    (hub : (s.hists.getD p.hour default).upperBound = 10800) :
    (durationU64 p q < 1200 →
      s.record_duration p q = (s, .error (.tooShort (durationU64 p q)))) ∧
    (10800 < durationU64 p q →
      s.record_duration p q = (s, .error (.tooLong (durationU64 p q)))) := by
  constructor
  · intro h
    have hs : durationU64 p q < 20 * 60 := by omega
    simp [DurationHistograms.record_duration, hs]
  · intro h
    have hs : ¬ durationU64 p q < 20 * 60 := by omega
    rcases s with ⟨hists⟩
    rw [List.getD_eq_getElem?_getD] at hub
    have hub' : (hists[p.hour]?.getD default).upperBound < durationU64 p q := by
      rw [hub]
      exact h
    simp [DurationHistograms.record_duration, Histogram.record, hs, hub',
      set_getElem?_getD_self, Except.mapError]

/-- Witness for C2 at concrete inputs: a 300-second trip is rejected as
too short and a 10860-second trip as too long, both leaving the fresh
accumulator unchanged. -/
theorem record_duration_range_errors_witness :
    (freshHists.hists.getD (mkDT 2021 6 7 9 0 0).hour default).upperBound
        = 10800 ∧
    durationU64 (mkDT 2021 6 7 9 0 0) (mkDT 2021 6 7 9 5 0) < 1200 ∧
    freshHists.record_duration (mkDT 2021 6 7 9 0 0)
        (mkDT 2021 6 7 9 5 0) =
      (freshHists, .error (.tooShort (durationU64 (mkDT 2021 6 7 9 0 0)
        (mkDT 2021 6 7 9 5 0)))) ∧
    10800 < durationU64 (mkDT 2021 6 7 9 0 0) (mkDT 2021 6 7 12 1 0) ∧
    freshHists.record_duration (mkDT 2021 6 7 9 0 0)
        (mkDT 2021 6 7 12 1 0) =
      (freshHists, .error (.tooLong (durationU64 (mkDT 2021 6 7 9 0 0)
        (mkDT 2021 6 7 12 1 0)))) :=
  ⟨by rfl, by decide,
   (record_duration_range_errors freshHists _ _ (by rfl)).1 (by decide),
   by decide,
   (record_duration_range_errors freshHists _ _ (by rfl)).2 (by decide)⟩

/-- C3: when `record_duration` succeeds, exactly one bucket frequency —
the bucket containing the computed duration, in the counter at index
`pickup.hour()` — is incremented by one; every other bucket of that
counter and all 23 other counters are unchanged (and the vector keeps its
length). -/
theorem record_duration_success_frame (s s' : DurationHistograms)
    (p q : DT) (hlen : p.hour < s.hists.length)
    (hok : s.record_duration p q = (s', .ok ())) :
    (s'.hists.getD p.hour default).counts (bucketIdx (durationU64 p q)) =
      (s.hists.getD p.hour default).counts (bucketIdx (durationU64 p q))
        + 1 ∧
    (∀ b, b ≠ bucketIdx (durationU64 p q) →
      (s'.hists.getD p.hour default).counts b =
        (s.hists.getD p.hour default).counts b) ∧
    (∀ i, i ≠ p.hour → s'.hists.getD i default = s.hists.getD i default) ∧
    s'.hists.length = s.hists.length := by
  rcases s with ⟨hists⟩
  by_cases hs : durationU64 p q < 20 * 60
  · simp [DurationHistograms.record_duration, hs] at hok
  · by_cases hub : (hists[p.hour]?.getD default).upperBound < durationU64 p q
    · simp [DurationHistograms.record_duration, Histogram.record, hs, hub,
        Except.mapError] at hok
    · simp only [DurationHistograms.record_duration, Histogram.record, hs,
        hub, ite_false, ite_true, if_neg, if_pos, Except.mapError,
        Prod.mk.injEq] at hok
      rcases hok with ⟨hok, -⟩
      subst hok
      have hlen' : p.hour < hists.length := hlen
      refine ⟨?_, ?_, ?_, ?_⟩
      · simp [List.getElem?_set_self hlen', hub]
      · intro b hb
        simp [List.getElem?_set_self hlen', hub, hb]
      · intro i hi
        simp [List.getElem?_set_ne (Ne.symm hi)]
      · simp

/-- Witness for C3: recording the 1800-second Monday 09:15 → 09:45 trip
into the fresh accumulator bumps exactly the 1800-bucket of counter 9. -/
theorem record_duration_success_frame_witness :
    (((freshHists.record_duration (mkDT 2021 6 7 9 15 0)
          (mkDT 2021 6 7 9 45 0)).1.hists.getD 9 default).counts
        (bucketIdx 1800) =
      (freshHists.hists.getD 9 default).counts (bucketIdx 1800) + 1) ∧
    (∀ b, b ≠ bucketIdx 1800 →
      ((freshHists.record_duration (mkDT 2021 6 7 9 15 0)
          (mkDT 2021 6 7 9 45 0)).1.hists.getD 9 default).counts b =
        (freshHists.hists.getD 9 default).counts b) ∧
    (∀ i, i ≠ (9 : Nat) →
      (freshHists.record_duration (mkDT 2021 6 7 9 15 0)
          (mkDT 2021 6 7 9 45 0)).1.hists.getD i default =
        freshHists.hists.getD i default) ∧
    (freshHists.record_duration (mkDT 2021 6 7 9 15 0)
        (mkDT 2021 6 7 9 45 0)).1.hists.length =
      freshHists.hists.length :=
  record_duration_success_frame freshHists _ (mkDT 2021 6 7 9 15 0)
    (mkDT 2021 6 7 9 45 0) (by decide) rfl

/-- C1: given that both timestamps of the record parse, the driver routes
the record to duration measurement — incrementing `matched` and calling
the accumulator — if and only if its pickup zone is midtown, its dropoff
zone is JFK (132), and its parsed pickup time is a weekday; otherwise only
`read` is bumped and the state is untouched. -/
theorem qualifying_route (rc : RecordCounts) (s : DurationHistograms)
    (t : Trip) (p q : DT)
    (hp : t.pickup_datetime = some p) (hq : t.dropoff_datetime = some q) :
    processTrip (rc, s) t =
      if is_in_midtown t.pickup_loc = true ∧
          is_jfk_airport t.dropoff_loc = true ∧ is_weekday p = true then
        .ok (measureStep
          { rc with read := (rc.read + 1) % 2 ^ 32, matched := (rc.matched + 1) % 2 ^ 32 }
          s p q)
      else .ok ({ rc with read := (rc.read + 1) % 2 ^ 32 }, s) := by
  cases hm : is_in_midtown t.pickup_loc with
  | false => simp [processTrip, hm]
  | true =>
    cases hj : is_jfk_airport t.dropoff_loc with
    | false => simp [processTrip, hm, hj]
    | true =>
      cases hw : is_weekday p with
      | false => simp [processTrip, hm, hj, hw, hp, parse_datetime]
      | true =>
        cases hrec : (s.record_duration p q).2 with
        | ok u =>
          simp [processTrip, hm, hj, hw, hp, hq, parse_datetime,
            measureStep, hrec]
        | error e =>
          simp [processTrip, hm, hj, hw, hp, hq, parse_datetime,
            measureStep, hrec]

/-- Witness for C1: a Monday 09:15 pickup from zone 161 to zone 132 is
routed to duration measurement with `matched` bumped. -/
theorem qualifying_route_witness :
    processTrip (RecordCounts.default, freshHists)
        ⟨some (mkDT 2021 6 7 9 15 0), some (mkDT 2021 6 7 9 45 0),
          161, 132⟩ =
      .ok (measureStep { RecordCounts.default with read := 1, matched := 1 }
        freshHists (mkDT 2021 6 7 9 15 0) (mkDT 2021 6 7 9 45 0)) := by
  rw [qualifying_route _ _ _ _ _ rfl rfl,
    if_pos ⟨by decide, by decide, by decide⟩]
  rfl

/-- C6: a `DurationError` from the accumulator is handled at the driver's
per-record boundary: `skipped` is bumped, the histograms are untouched,
and the scan continues with the remaining records — the run is not
aborted. -/
theorem duration_error_skips_and_continues
    (rest : List (Except Fatal Trip)) (rc : RecordCounts)
    (s : DurationHistograms) (t : Trip) (p q : DT) (e : DurationError)
    (hp : t.pickup_datetime = some p) (hq : t.dropoff_datetime = some q)
    (hm : is_in_midtown t.pickup_loc = true)
    (hj : is_jfk_airport t.dropoff_loc = true)
    (hw : is_weekday p = true)
    (herr : (s.record_duration p q).2 = .error e) :
    analyzeList (.ok t :: rest) rc s =
      analyzeList rest
        { rc with read := (rc.read + 1) % 2 ^ 32, matched := (rc.matched + 1) % 2 ^ 32, skipped := (rc.skipped + 1) % 2 ^ 32 }
        s := by
  have hfst := record_duration_error_fst s p q e herr
  simp [analyzeList, processTrip, hm, hj, hw, hp, hq, parse_datetime,
    herr, hfst]

/-- Witness for C6: the 300-second Monday trip from zone 161 to 132 is
reported too short; the driver bumps all three counters and goes on with
the (empty) rest of the scan. -/
theorem duration_error_skips_and_continues_witness :
    analyzeList [.ok ⟨some (mkDT 2021 6 7 9 15 0),
        some (mkDT 2021 6 7 9 20 0), 161, 132⟩]
      RecordCounts.default freshHists =
      analyzeList []
        { RecordCounts.default with read := 1, matched := 1, skipped := 1 }
        freshHists :=
  duration_error_skips_and_continues [] RecordCounts.default freshHists
    _ _ _ (.tooShort 300) rfl rfl (by decide) (by decide) (by decide)
    (by rfl)

/-- C8: the pickup-timestamp parser runs iff both zone tests pass.  A
record failing a zone test leaves everything but `read` unchanged and the
run continues even if its timestamps are malformed (no parser call
occurs); a record passing both zone tests with a malformed pickup
timestamp aborts the whole run with the fatal parse error, before any
weekday test. -/
theorem zone_gate_and_fatal_parse (rest : List (Except Fatal Trip))
    (rc : RecordCounts) (s : DurationHistograms) (t : Trip) :
    (¬ (is_in_midtown t.pickup_loc = true ∧
        is_jfk_airport t.dropoff_loc = true) →
      analyzeList (.ok t :: rest) rc s =
        analyzeList rest { rc with read := (rc.read + 1) % 2 ^ 32 } s) ∧
    (is_in_midtown t.pickup_loc = true →
      is_jfk_airport t.dropoff_loc = true → t.pickup_datetime = none →
      analyzeList (.ok t :: rest) rc s = .error .parseError) := by
  constructor
  · intro hng
    have hz : (is_in_midtown t.pickup_loc &&
        is_jfk_airport t.dropoff_loc) = false := by
      cases hm : is_in_midtown t.pickup_loc <;>
        cases hj : is_jfk_airport t.dropoff_loc <;> simp_all
    simp [analyzeList, processTrip, hz]
  · intro hm hj hn
    simp [analyzeList, processTrip, hm, hj, hn, parse_datetime]

/-- Witness for C8: a zone-1 pickup (not midtown) with unparseable
timestamps is read and passed over without a parser call; a zone-161
pickup to 132 with a malformed pickup timestamp kills the run. -/
theorem zone_gate_and_fatal_parse_witness :
    (analyzeList [.ok ⟨none, none, 1, 132⟩]
        RecordCounts.default freshHists =
      analyzeList [] { RecordCounts.default with read := 1 } freshHists) ∧
    analyzeList [.ok ⟨none, none, 161, 132⟩]
        RecordCounts.default freshHists = .error .parseError :=
  ⟨(zone_gate_and_fatal_parse [] RecordCounts.default freshHists _).1
      (by decide),
   (zone_gate_and_fatal_parse [] RecordCounts.default freshHists _).2
      (by decide) (by decide) rfl⟩

/-- How one successful driver step moves the counts: `read` always gains
one (modulo the u32 wrap); `matched` gains at most one; `skipped` gains
one only together with `matched`. -/
theorem processTrip_counts_step (rc : RecordCounts) (s : DurationHistograms)
    (t : Trip) (rc' : RecordCounts) (s' : DurationHistograms)
    (h : processTrip (rc, s) t = .ok (rc', s')) :
    rc'.read = (rc.read + 1) % 2 ^ 32 ∧
    (rc'.matched = rc.matched ∨ rc'.matched = (rc.matched + 1) % 2 ^ 32) ∧
    (rc'.skipped = rc.skipped ∨
      (rc'.skipped = (rc.skipped + 1) % 2 ^ 32 ∧
        rc'.matched = (rc.matched + 1) % 2 ^ 32)) := by
  cases hz : (is_in_midtown t.pickup_loc && is_jfk_airport t.dropoff_loc) with
  | false =>
    simp [processTrip, hz] at h
    obtain ⟨h1, -⟩ := h
    subst h1
    exact ⟨rfl, Or.inl rfl, Or.inl rfl⟩
  | true =>
    cases hpd : t.pickup_datetime with
    | none => simp [processTrip, hz, hpd, parse_datetime] at h
    | some p =>
      cases hw : is_weekday p with
      | false =>
        simp [processTrip, hz, hpd, hw, parse_datetime] at h
        obtain ⟨h1, -⟩ := h
        subst h1
        exact ⟨rfl, Or.inl rfl, Or.inl rfl⟩
      | true =>
        cases hdd : t.dropoff_datetime with
        | none => simp [processTrip, hz, hpd, hw, hdd, parse_datetime] at h
        | some q =>
          cases hrec : (s.record_duration p q).2 with
          | ok u =>
            simp [processTrip, hz, hpd, hw, hdd, hrec, parse_datetime] at h
            obtain ⟨h1, -⟩ := h
            subst h1
            exact ⟨rfl, Or.inr rfl, Or.inl rfl⟩
          | error e =>
            simp [processTrip, hz, hpd, hw, hdd, hrec, parse_datetime] at h
            obtain ⟨h1, -⟩ := h
            subst h1
            exact ⟨rfl, Or.inr rfl, Or.inr ⟨rfl, rfl⟩⟩

/-- C5 (amended): across every run that reads fewer than 2^32 records —
so the wrapping u32 counters never overflow — the running counts satisfy
`read ≥ matched ≥ skipped` whenever they do at the start of the scan,
start at zero, and each counter is monotonically non-decreasing across
the processing of successive records.  (At exactly 2^32 reads the
counter wraps and both properties fail; see the counterexample.) -/
theorem running_counts_invariant (rows : List (Except Fatal Trip))
    (rc rc' : RecordCounts) (s s' : DurationHistograms)
    (hsm : rc.skipped ≤ rc.matched) (hmr : rc.matched ≤ rc.read)
    (hbound : rc.read + rows.length < 2 ^ 32)
    (hrun : analyzeList rows rc s = .ok (rc', s')) :
    (rc'.skipped ≤ rc'.matched ∧ rc'.matched ≤ rc'.read) ∧
    (rc.read ≤ rc'.read ∧ rc.matched ≤ rc'.matched ∧
      rc.skipped ≤ rc'.skipped) ∧
    RecordCounts.default.read = 0 ∧ RecordCounts.default.matched = 0 ∧
    RecordCounts.default.skipped = 0 := by
  induction rows generalizing rc s with
  | nil =>
    simp [analyzeList] at hrun
    obtain ⟨h1, -⟩ := hrun
    subst h1
    exact ⟨⟨hsm, hmr⟩, ⟨Nat.le_refl _, Nat.le_refl _, Nat.le_refl _⟩,
      rfl, rfl, rfl⟩
  | cons row rest ih =>
    simp only [List.length_cons] at hbound
    cases row with
    | error e => simp [analyzeList] at hrun
    | ok t =>
      cases hpt : processTrip (rc, s) t with
      | error e => simp [analyzeList, hpt] at hrun
      | ok st2 =>
        obtain ⟨rc2, s2⟩ := st2
        have hrun2 : analyzeList rest rc2 s2 = .ok (rc', s') := by
          simpa [analyzeList, hpt] using hrun
        obtain ⟨e1, e2, e3⟩ :=
          processTrip_counts_step rc s t rc2 s2 hpt
        have hr1 : (rc.read + 1) % 2 ^ 32 = rc.read + 1 :=
          Nat.mod_eq_of_lt (by omega)
        have hm1 : (rc.matched + 1) % 2 ^ 32 = rc.matched + 1 :=
          Nat.mod_eq_of_lt (by omega)
        have hs1 : (rc.skipped + 1) % 2 ^ 32 = rc.skipped + 1 :=
          Nat.mod_eq_of_lt (by omega)
        rw [hr1] at e1
        rw [hm1] at e2
        rw [hm1, hs1] at e3
        have inv2 : rc2.skipped ≤ rc2.matched ∧ rc2.matched ≤ rc2.read := by
          constructor <;> omega
        have hb2 : rc2.read + rest.length < 2 ^ 32 := by omega
        obtain ⟨hi1, hi2, hi3⟩ :=
          ih rc2 s2 inv2.1 inv2.2 hb2 hrun2
        refine ⟨hi1, ?_, hi3⟩
        obtain ⟨m1, m2, m3⟩ := hi2
        refine ⟨by omega, by omega, by omega⟩

/-- Witness for C5: one qualifying-but-too-short record takes the fresh
zeroed counts to (1, 1, 1), which still satisfies the invariant. -/
theorem running_counts_invariant_witness :
    ((1 : Nat) ≤ 1 ∧ (1 : Nat) ≤ 1) ∧
    (RecordCounts.default.read ≤ 1 ∧ RecordCounts.default.matched ≤ 1 ∧
      RecordCounts.default.skipped ≤ 1) ∧
    RecordCounts.default.read = 0 ∧ RecordCounts.default.matched = 0 ∧
    RecordCounts.default.skipped = 0 :=
  running_counts_invariant
    [.ok ⟨some (mkDT 2021 6 7 9 15 0), some (mkDT 2021 6 7 9 20 0),
        161, 132⟩]
    RecordCounts.default ⟨1, 1, 1⟩ freshHists freshHists
    (by decide) (by decide) (by decide) (by rfl)

/-- The scan of `n` copies of a record that fails the zone gate: only
`read` moves, wrapping modulo 2^32. -/
theorem analyzeList_replicate_non_midtown (n : Nat) (rc : RecordCounts)
    (s : DurationHistograms) (hr : rc.read < 2 ^ 32) :
    analyzeList (List.replicate n (.ok ⟨none, none, 1, 132⟩)) rc s =
      .ok ({ rc with read := (rc.read + n) % 2 ^ 32 }, s) := by
  induction n generalizing rc with
  | zero =>
    have h0 : rc.read % 4294967296 = rc.read := Nat.mod_eq_of_lt (by omega)
    simp [analyzeList, h0]
  | succ m ih =>
    have hz : (is_in_midtown 1 && is_jfk_airport 132) = false := by decide
    have hstep : processTrip (rc, s) ⟨none, none, 1, 132⟩ =
        .ok ({ rc with read := (rc.read + 1) % 2 ^ 32 }, s) := by
      simp [processTrip, hz]
    have hlt : ((rc.read + 1) % 2 ^ 32) < 2 ^ 32 := by omega
    rw [List.replicate_succ]
    simp only [analyzeList, hstep]
    rw [ih { rc with read := (rc.read + 1) % 2 ^ 32 } hlt]
    simp only [Except.ok.injEq, Prod.mk.injEq, RecordCounts.mk.injEq,
      eq_self_iff_true, and_true, true_and]
    omega

/-- Counterexample for C5 as stated: counters are u32 and wrap.  One
qualifying too-short Monday trip (read = matched = skipped = 1) followed
by 2^32 - 2 zone-failing records brings the counts to
(2^32 - 1, 1, 1); one more zone-failing record wraps `read` to 0 — so
`read` decreases across that record (monotonicity fails) and the final
state has read = 0 < 1 = matched (the ordering invariant fails). -/
theorem running_counts_wrap_counterexample :
    analyzeList (.ok ⟨some (mkDT 2021 6 7 9 15 0),
        some (mkDT 2021 6 7 9 20 0), 161, 132⟩ ::
        List.replicate (2 ^ 32 - 2) (.ok ⟨none, none, 1, 132⟩))
      RecordCounts.default freshHists =
      .ok (⟨2 ^ 32 - 1, 1, 1⟩, freshHists) ∧
    analyzeList (.ok ⟨some (mkDT 2021 6 7 9 15 0),
        some (mkDT 2021 6 7 9 20 0), 161, 132⟩ ::
        List.replicate (2 ^ 32 - 1) (.ok ⟨none, none, 1, 132⟩))
      RecordCounts.default freshHists =
      .ok (⟨0, 1, 1⟩, freshHists) ∧
    (⟨0, 1, 1⟩ : RecordCounts).read < (⟨0, 1, 1⟩ : RecordCounts).matched ∧
    (⟨0, 1, 1⟩ : RecordCounts).read <
      (⟨2 ^ 32 - 1, 1, 1⟩ : RecordCounts).read := by
  have h1 : ∀ rest : List (Except Fatal Trip),
      analyzeList (.ok ⟨some (mkDT 2021 6 7 9 15 0),
          some (mkDT 2021 6 7 9 20 0), 161, 132⟩ :: rest)
        RecordCounts.default freshHists =
        analyzeList rest ⟨1, 1, 1⟩ freshHists := fun rest => rfl
  refine ⟨?_, ?_, by norm_num, by norm_num⟩
  · rw [h1, analyzeList_replicate_non_midtown _ _ _ (by norm_num)]
    norm_num
  · rw [h1, analyzeList_replicate_non_midtown _ _ _ (by norm_num)]
    norm_num

end TripAnalyzer
